import Mathlib

/-!
# melosignal — a Lean embedding of `src/signal.h`

`signal.h` contains two variants of `melo::signal<Args...>`:

* the **QMutex variant** (first document in the file): `Slot` holds a
  possibly-empty `std::function` (`function`, default `nullptr`) and a
  `QPointer<QThread>` (`thread`, defaulted to `QThread::currentThread()` at
  connect time); `insert`, `disconnect` and `emit` all lock a single `QMutex`;
  `emit` skips a slot unless `slot.function != nullptr && slot.thread`, then
  invokes directly when `slot.thread->isCurrentThread()` and otherwise posts a
  queued closure to `slot.thread`;

* the **QReadWriteLock variant** (second document): `Slot` holds `callback`,
  `QPointer<QThread> thread` and `QPointer<QObject> qobject_instance`;
  `insert`/`connect`/`disconnect` take a `QWriteLocker`, `emit` a
  `QReadLocker`; `emit` skips a slot unless `slot.callback != nullptr`, then
  (1) if the `qobject_instance` QPointer tests true (non-null and target not
  destroyed) it calls `QMetaObject::invokeMethod(slot.qobject_instance, …,
  Qt::AutoConnection)` — synchronous when the receiver object's thread is the
  current thread, otherwise queued onto the receiver object's thread; (2)
  otherwise it falls to `else if (slot.thread->isCurrentThread())` — direct
  invocation — and (3) otherwise posts a queued closure to `slot.thread`.

The embedding below models threads and QObjects by `Nat` identifiers and
type-erased callbacks by `Nat` identifiers wrapped in `Option` (an empty
`std::function` is `none`).  An `emit` call is modelled as the list of
dispatch outcomes it produces, in iteration (= connection) order: each slot
contributes at most one `Action`, either a synchronous invocation (`direct`)
or a closure submitted to a target context's queue (`queued`).

The state of the outside world at emit time is passed explicitly:
* `cur : Nat` — the id of the thread the emitter is running on
  (`QThread::currentThread()` / `isCurrentThread()`);
* `alive : Nat → Bool` — whether a given QObject has not been destroyed
  (the `QPointer<QObject>` boolean test);
* `objThread : Nat → Nat` — the thread a given QObject currently lives in
  (what `Qt::AutoConnection` consults at call time).
-/

namespace Melo

/-- One dispatch outcome of an `emit` call: `direct cb args` is a synchronous
invocation of callback `cb` with the emitted arguments, performed before
`emit` returns; `queued target cb args` is a closure capturing `cb` and a copy
of the arguments, submitted to the event queue of thread `target`
(`QMetaObject::invokeMethod` with `Qt::QueuedConnection`, or the queued half of
`Qt::AutoConnection`). -/
inductive Action (α : Type) where
  | direct (cb : Nat) (args : α)
  | queued (target : Nat) (cb : Nat) (args : α)
deriving DecidableEq, Repr

/-! ## QMutex variant -/

/-- QMutex-variant `Slot`: `function` is the stored `std::function`
(`none` = `nullptr`, the default member value), `thread` the
`QPointer<QThread>` captured at connect time (`none` = the pointer now tests
false because the thread object was destroyed). -/
structure Slot1 where
  function : Option Nat
  thread : Option Nat
deriving DecidableEq, Repr

/-- QMutex-variant `insert`: under the mutex, `slots.emplace_back(func)`
aggregate-initializes a `Slot` whose `function` is `func` and whose `thread`
defaults to `QThread::currentThread()` — the connecting thread `cur`. -/
def insert1 (slots : List Slot1) (cur : Nat) (func : Option Nat) : List Slot1 :=
  slots ++ [{ function := func, thread := some cur }]

/-- QMutex-variant `disconnect`: `slots.clear()` under the mutex. -/
def disconnect1 (_slots : List Slot1) : List Slot1 := []

/-- The per-slot body of the QMutex-variant `emit` loop:
`if (slot.function != nullptr && slot.thread)` guards the dispatch, then
`slot.thread->isCurrentThread()` selects direct invocation over a queued post
to `slot.thread`.  `none` means the slot is skipped. -/
def dispatch1 {α : Type} (cur : Nat) (args : α) (slot : Slot1) : Option (Action α) :=
  match slot.function, slot.thread with
  | some cb, some t =>
      if t = cur then some (.direct cb args) else some (.queued t cb args)
  | _, _ => none

/-- QMutex-variant `emit`: iterate the slots in order, each contributing at
most one dispatch outcome. -/
def emit1 {α : Type} (slots : List Slot1) (cur : Nat) (args : α) : List (Action α) :=
  slots.filterMap (dispatch1 cur args)

/-! ## QReadWriteLock variant -/

/-- QReadWriteLock-variant `Slot`: `callback` is the stored `std::function`
(`none` = empty), `thread` the `QThread::currentThread()` captured at connect
time, `qobject_instance` the `QPointer<QObject>` receiver (`none` when the
slot was created by a non-QObject overload, which stores `nullptr`).

`emit` dereferences `slot.thread` unconditionally (`slot.thread->
isCurrentThread()`), so the embedding models it as a plain thread id: the
claims under study never destroy an owning `QThread` in this variant. -/
structure Slot2 where
  callback : Option Nat
  thread : Nat
  qobject_instance : Option Nat
deriving DecidableEq, Repr

/-- QReadWriteLock-variant `insert`: under a write lock, append
`Slot{std::move(callee), QThread::currentThread(), nullptr}`. -/
def insert2 (slots : List Slot2) (cur : Nat) (callee : Option Nat) : List Slot2 :=
  slots ++ [{ callback := callee, thread := cur, qobject_instance := none }]

/-- QReadWriteLock-variant `connect(ClassType*, Function&&)` when
`ClassType` derives from `QObject`: under a write lock, append a slot whose
callback is the freshly built member-invoking lambda (never an empty
`std::function`, hence `some cb`) and whose `qobject_instance` is the
receiver. -/
def connectQObject2 (slots : List Slot2) (cur : Nat) (cb : Nat) (inst : Nat) :
    List Slot2 :=
  slots ++ [{ callback := some cb, thread := cur, qobject_instance := some inst }]

/-- QReadWriteLock-variant `disconnect`: `slots.clear()` under a write lock. -/
def disconnect2 (_slots : List Slot2) : List Slot2 := []

/-- The boolean test of a `QPointer<QObject>` at emit time: true (returning
the object) iff the stored pointer is non-null and the object has not been
destroyed. -/
def qptrTest (alive : Nat → Bool) : Option Nat → Option Nat
  | some obj => if alive obj then some obj else none
  | none => none

/-- The per-slot body of the QReadWriteLock-variant `emit` loop:
`if (slot.callback != nullptr)` guards everything; then
`if (slot.qobject_instance)` dispatches through
`QMetaObject::invokeMethod(slot.qobject_instance, …, Qt::AutoConnection)`,
which is synchronous when the receiver object's current thread is the calling
thread and queued onto the receiver object's thread otherwise; when the
QPointer tests false (no receiver, or receiver destroyed) control falls to
`else if (slot.thread->isCurrentThread())` — direct — and otherwise to a
queued post onto `slot.thread`. -/
def dispatch2 {α : Type} (cur : Nat) (alive : Nat → Bool) (objThread : Nat → Nat)
    (args : α) (slot : Slot2) : Option (Action α) :=
  match slot.callback with
  | none => none
  | some cb =>
      match qptrTest alive slot.qobject_instance with
      | some obj =>
          if objThread obj = cur then some (.direct cb args)
          else some (.queued (objThread obj) cb args)
      | none =>
          if slot.thread = cur then some (.direct cb args)
          else some (.queued slot.thread cb args)

/-- QReadWriteLock-variant `emit`: iterate the slots in order under the read
lock, each contributing at most one dispatch outcome. -/
def emit2 {α : Type} (slots : List Slot2) (cur : Nat) (alive : Nat → Bool)
    (objThread : Nat → Nat) (args : α) : List (Action α) :=
  slots.filterMap (dispatch2 cur alive objThread args)

/-- Spec-side definition (claim C3's count, written from the claim's words,
not from the code): the number of connected slots whose receiver, if any, is
alive at emit time. -/
def claimLiveSlotCount (alive : Nat → Bool) (slots : List Slot2) : Nat :=
  (slots.filter fun slot =>
    match slot.qobject_instance with
    | some obj => alive obj
    | none => true).length

/-! ## A trace machine over the QMutex variant

An execution interleaves `connect` / `disconnect` / `emit` calls with the
moments at which a target thread's event loop runs one of the closures that
`emit` posted to it with `Qt::QueuedConnection`.  The machine records the
registry, the multiset of posted-but-not-yet-run closures (in submission
order), and emits an `Event` for every actual invocation of a callback,
tagged with whether it ran synchronously inside `emit` or later from a
thread's event queue. -/

/-- A closure posted by `emit` to thread `target`'s event queue: it captures
the slot's callback and a copy of the emitted arguments
(`[slot, args...] { slot.function(args...); }`). -/
structure PendingItem (α : Type) where
  target : Nat
  cb : Nat
  args : α
deriving DecidableEq, Repr

/-- Where an invocation of a callback happened: synchronously inside an
`emit` call, or later when a thread's event loop ran a posted closure. -/
inductive Origin where
  | fromEmit
  | fromQueue
deriving DecidableEq, Repr

/-- One actual invocation of callback `cb` with arguments `args`, running on
thread `ctx`. -/
structure Event (α : Type) where
  origin : Origin
  cb : Nat
  args : α
  ctx : Nat
deriving DecidableEq, Repr

/-- An operation of the trace machine: an API call made from thread `ctx`,
or thread `ctx`'s event loop running its oldest posted closure. -/
inductive Op (α : Type) where
  | connect (func : Option Nat) (ctx : Nat)
  | disconnect
  | emit (args : α) (ctx : Nat)
  | runPending (ctx : Nat)
deriving DecidableEq, Repr

/-- Whether an operation is a `connect` call. -/
def Op.isConnect {α : Type} : Op α → Bool
  | .connect _ _ => true
  | _ => false

/-- The state of one signal plus the event queues of all threads: the slot
registry and the posted closures not yet run, in submission order. -/
structure SigState (α : Type) where
  slots : List Slot1
  pending : List (PendingItem α)
deriving DecidableEq, Repr

/-- Remove the oldest pending closure targeted at thread `ctx`, if any
(per-target FIFO delivery). -/
def popPending {α : Type} (ctx : Nat) :
    List (PendingItem α) → Option (PendingItem α × List (PendingItem α))
  | [] => none
  | p :: rest =>
      if p.target = ctx then some (p, rest)
      else
        match popPending ctx rest with
        | some (q, rest2) => some (q, p :: rest2)
        | none => none

/-- One step of the trace machine: the new state and the invocations the step
performs.  `emit` performs its direct invocations itself and appends its
queued dispatches to the pending list; `runPending ctx` lets thread `ctx` run
its oldest posted closure, which invokes the captured callback there. -/
def step {α : Type} (s : SigState α) : Op α → SigState α × List (Event α)
  | .connect func ctx => ({ s with slots := insert1 s.slots ctx func }, [])
  | .disconnect => ({ s with slots := disconnect1 s.slots }, [])
  | .emit args ctx =>
      let acts := emit1 s.slots ctx args
      ({ s with
          pending := s.pending ++ acts.filterMap fun a =>
            match a with
            | .direct _ _ => none
            | .queued t cb a2 => some ⟨t, cb, a2⟩ },
        acts.filterMap fun a =>
          match a with
          | .direct cb a2 => some ⟨.fromEmit, cb, a2, ctx⟩
          | .queued _ _ _ => none)
  | .runPending ctx =>
      match popPending ctx s.pending with
      | none => (s, [])
      | some (p, rest) => ({ s with pending := rest }, [⟨.fromQueue, p.cb, p.args, ctx⟩])

/-- Run a list of operations from a state, collecting every invocation in
order. -/
def run {α : Type} (s : SigState α) : List (Op α) → SigState α × List (Event α)
  | [] => (s, [])
  | op :: ops =>
      let r := step s op
      let r2 := run r.1 ops
      (r2.1, r.2 ++ r2.2)

/-! ## The lock each operation takes

Read off the source: in the QMutex variant `insert`, `disconnect` and `emit`
all construct a `QMutexLocker` over the one `QMutex` (an exclusive lock); in
the QReadWriteLock variant `insert`, the QObject `connect` overload and
`disconnect` construct a `QWriteLocker` and `emit` a `QReadLocker` over the
one `QReadWriteLock`. -/

/-- The kind of lock an operation acquires on the registry. -/
inductive LockKind where
  | shared
  | exclusive
deriving DecidableEq, Repr

/-- QMutex-variant `emit`: `QMutexLocker locker(&mutex)`. -/
def emitLock1 : LockKind := .exclusive

/-- QMutex-variant `insert` (used by every `connect`): `QMutexLocker`. -/
def connectLock1 : LockKind := .exclusive

/-- QMutex-variant `disconnect`: `QMutexLocker`. -/
def disconnectLock1 : LockKind := .exclusive

/-- QReadWriteLock-variant `emit`: `QReadLocker locker(&lock)`. -/
def emitLock2 : LockKind := .shared

/-- QReadWriteLock-variant `insert` and the QObject `connect` overload:
`QWriteLocker locker(&lock)`. -/
def connectLock2 : LockKind := .exclusive

/-- QReadWriteLock-variant `disconnect`: `QWriteLocker`. -/
def disconnectLock2 : LockKind := .exclusive

/-- Two critical sections over the same reader/writer lock can overlap iff
both hold the lock in shared mode. -/
def mayRunConcurrently : LockKind → LockKind → Bool
  | .shared, .shared => true
  | _, _ => false

/-! ## Claims -/

/-- Claim C5: within one emit call, direct invocations happen in connection
order and complete before emit returns, queued dispatches are submitted in
connection order, and the registry preserves insertion order equal to
connection order.  Stated for the QMutex variant the claim cites: `insert1`
appends at the back (so registry order is connection order), `emit1`
processes any prefix of the registry entirely before any suffix, and each
single slot contributes exactly its own dispatch outcome; together these pin
the action list to connection order. -/
theorem c5_connection_order {α : Type} :
    (∀ (slots : List Slot1) (cur : Nat) (func : Option Nat),
        insert1 slots cur func = slots ++ [{ function := func, thread := some cur }]) ∧
    (∀ (pre post : List Slot1) (cur : Nat) (args : α),
        emit1 (pre ++ post) cur args = emit1 pre cur args ++ emit1 post cur args) ∧
    (∀ (slot : Slot1) (cur : Nat) (args : α),
        emit1 [slot] cur args = (dispatch1 cur args slot).toList) := by
  refine ⟨fun _ _ _ => rfl, fun pre post cur args => ?_, fun slot cur args => ?_⟩
  · simp [emit1]
  · cases h : dispatch1 cur args slot <;> simp [emit1, h]

/-- Claim C6: after `disconnect`, every subsequent emit produces zero
invocations, and emit with zero connected slots is a no-op.  Stated for both
variants. -/
theorem c6_disconnect_then_silent {α : Type} :
    (∀ (slots : List Slot1) (cur : Nat) (args : α),
        emit1 (disconnect1 slots) cur args = []) ∧
    (∀ (slots : List Slot2) (cur : Nat) (alive : Nat → Bool)
        (objThread : Nat → Nat) (args : α),
        emit2 (disconnect2 slots) cur alive objThread args = []) ∧
    (∀ (cur : Nat) (args : α), emit1 [] cur args = []) ∧
    (∀ (cur : Nat) (alive : Nat → Bool) (objThread : Nat → Nat) (args : α),
        emit2 [] cur alive objThread args = []) :=
  ⟨fun _ _ _ => rfl, fun _ _ _ _ _ => rfl, fun _ _ => rfl, fun _ _ _ _ => rfl⟩

/-- Claim C7: connect always appends exactly one new slot, with no
deduplication — in both variants `insert` appends one slot at the back — and
connecting the same callback twice from the same thread yields two slots and
two invocations per emit. -/
theorem c7_append_no_dedup {α : Type} :
    (∀ (slots : List Slot1) (cur : Nat) (func : Option Nat),
        insert1 slots cur func = slots ++ [{ function := func, thread := some cur }] ∧
        (insert1 slots cur func).length = slots.length + 1) ∧
    (∀ (slots : List Slot2) (cur : Nat) (callee : Option Nat),
        insert2 slots cur callee
          = slots ++ [{ callback := callee, thread := cur, qobject_instance := none }] ∧
        (insert2 slots cur callee).length = slots.length + 1) ∧
    (∀ (c cur : Nat) (args : α),
        emit1 (insert1 (insert1 [] cur (some c)) cur (some c)) cur args
          = [Action.direct c args, Action.direct c args]) := by
  refine ⟨fun slots cur func => ⟨rfl, by simp [insert1]⟩,
    fun slots cur callee => ⟨rfl, by simp [insert2]⟩, fun c cur args => ?_⟩
  simp [insert1, emit1, dispatch1]

/-- Claim C10: in the QMutex variant, a slot produces a dispatch outcome
(direct or queued) exactly when its stored `std::function` is non-null and
its `QPointer<QThread>` still points at a live thread; a slot with an empty
function or a destroyed owning thread is skipped, producing nothing. -/
theorem c10_skip_null_or_dead {α : Type} :
    ∀ (slot : Slot1) (cur : Nat) (args : α),
      (dispatch1 cur args slot).isSome
        = (slot.function.isSome && slot.thread.isSome) := by
  rintro ⟨func, thread⟩ cur args
  cases func <;> cases thread <;> simp [dispatch1, apply_ite Option.isSome]

/-- Claim C2, evaluated at the failing input: in the QReadWriteLock variant,
one slot connected with a QObject receiver (object 5, callback 0, connecting
thread 1) whose receiver has been destroyed before emit (`alive` is false
everywhere) is NOT silently skipped.  The dead `QPointer` makes
`if (slot.qobject_instance)` false, control falls through to
`else if (slot.thread->isCurrentThread())`, and the callback — a lambda
capturing the raw receiver pointer — is invoked anyway, here synchronously
because the emitter runs on the slot's stored thread 1.  The claim demands
zero invocations for this slot. -/
theorem c2_dead_receiver_invoked :
    emit2 (connectQObject2 [] 1 0 5) 1 (fun _ => false) (fun _ => 9) 42
      = [Action.direct 0 42] := rfl

/-- Claim C3, evaluated at the failing input: one slot whose QObject receiver
(object 6) is dead at emit time.  The claim predicts as many invocations as
there are connected slots with a live receiver — here `claimLiveSlotCount`
is 0 — but the emit produces 1 invocation, because the dead-receiver slot
falls through to the thread branch instead of being skipped. -/
theorem c3_invocation_count_mismatch :
    (emit2 (connectQObject2 [] 3 2 6) 3 (fun _ => false) (fun _ => 0) 8).length = 1 ∧
    claimLiveSlotCount (fun _ => false) (connectQObject2 [] 3 2 6) = 0 :=
  ⟨rfl, rfl⟩

/-- Claim C1, refuted at a concrete input: one slot connected from thread 1
(stored owning context 1) with a live QObject receiver (object 4) that lives
in thread 2; the emitter runs on thread 1.  The claim predicts a synchronous
invocation, since the slot's owning context equals the current context and
the receiver is alive; the code instead dispatches through
`Qt::AutoConnection` on the receiver object, which compares the *receiver's*
thread (2) with the current thread (1) and enqueues onto thread 2.  No
synchronous invocation happens. -/
theorem c1_counterexample :
    emit2 (connectQObject2 [] 1 0 4) 1 (fun _ => true)
        (fun _ => 2) 9
      = [Action.queued 2 0 9] ∧
    Action.direct 0 9 ∉
      emit2 (connectQObject2 [] 1 0 4) 1 (fun _ => true) (fun _ => 2) 9 := by
  constructor
  · rfl
  · decide

/-- Claim C1 as amended: for every slot whose callback is non-null and whose
receiver (if any) is alive — if the slot has no QObject receiver (which
includes every slot of the QMutex variant), the callback is invoked
synchronously when the slot's stored connect-time context equals the current
context and otherwise a closure is enqueued onto that stored context; if the
slot has a live QObject receiver, the dispatch decision instead follows the
receiver object's thread at emit time: synchronous when that thread is the
current one, otherwise enqueued onto the receiver's thread. -/
theorem c1_amended {α : Type} :
    ∀ (slot : Slot2) (cur : Nat) (alive : Nat → Bool) (objThread : Nat → Nat)
      (args : α) (cb : Nat),
      slot.callback = some cb →
      (slot.qobject_instance = none →
        dispatch2 cur alive objThread args slot
          = some (if slot.thread = cur then Action.direct cb args
                  else Action.queued slot.thread cb args)) ∧
      (∀ obj, slot.qobject_instance = some obj → alive obj = true →
        dispatch2 cur alive objThread args slot
          = some (if objThread obj = cur then Action.direct cb args
                  else Action.queued (objThread obj) cb args)) ∧
      (∀ (slot1 : Slot1) (t : Nat),
        slot1.function = some cb → slot1.thread = some t →
        dispatch1 cur args slot1
          = some (if t = cur then Action.direct cb args
                  else Action.queued t cb args)) := by
  intro slot cur alive objThread args cb hcb
  refine ⟨fun hq => ?_, fun obj hq ha => ?_, fun slot1 t hf ht => ?_⟩
  · simp [dispatch2, hcb, hq, qptrTest, apply_ite some]
  · simp [dispatch2, hcb, hq, qptrTest, ha, apply_ite some]
  · simp [dispatch1, hf, ht, apply_ite some]

/-- Concrete instance of `c1_amended`: a receiverless slot connected from
thread 2, emitted from thread 2, is dispatched by its stored context. -/
theorem c1_amended_witness :
    dispatch2 2 (fun _ => true) (fun n => n) (0 : Nat)
        { callback := some 7, thread := 2, qobject_instance := none }
      = some (Action.direct 7 0) := by
  simpa using (c1_amended { callback := some 7, thread := 2, qobject_instance := none }
    2 (fun _ => true) (fun n => n) 0 7 rfl).1 rfl

/-- Claim C8, refuted at a concrete input: a slot connected from thread 3
(stored owning context 3, callback 1) with a live QObject receiver
(object 7).  With the receiver living in thread 4, an emit from thread 3 —
where the claim, using the stored context, predicts a synchronous call —
enqueues onto thread 4 instead; moving the receiver to thread 3 flips the
very same slot's dispatch to synchronous.  The dispatch decision is thus
re-resolved from the receiver at each emit, not taken from the context
stored at connect time. -/
theorem c8_counterexample :
    emit2 (connectQObject2 [] 3 1 7) 3 (fun _ => true) (fun _ => 4) 5
      = [Action.queued 4 1 5] ∧
    emit2 (connectQObject2 [] 3 1 7) 3 (fun _ => true) (fun _ => 3) 5
      = [Action.direct 1 5] :=
  ⟨rfl, rfl⟩

/-- Claim C8 as amended: for slots without a QObject receiver the context
stored at connect time is the only context the dispatch decision consults —
the outcome is independent of the emit-time state of the QObject world — and
no insert rewrites a previously stored slot; for slots with a live QObject
receiver the dispatch decision instead uses the receiver object's thread as
it is at emit time. -/
theorem c8_amended {α : Type} :
    (∀ (slot : Slot2) (cur : Nat) (alive alive2 : Nat → Bool)
        (objThread objThread2 : Nat → Nat) (args : α),
        slot.qobject_instance = none →
        dispatch2 cur alive objThread args slot
          = dispatch2 cur alive2 objThread2 args slot) ∧
    (∀ (slots : List Slot2) (cur : Nat) (callee : Option Nat),
        (insert2 slots cur callee).take slots.length = slots) ∧
    (∀ (slots : List Slot2) (cur cb inst : Nat),
        (connectQObject2 slots cur cb inst).take slots.length = slots) ∧
    (∀ (slots : List Slot1) (cur : Nat) (func : Option Nat),
        (insert1 slots cur func).take slots.length = slots) ∧
    (∀ (slot : Slot2) (cur : Nat) (alive : Nat → Bool) (objThread : Nat → Nat)
        (args : α) (cb obj : Nat),
        slot.callback = some cb → slot.qobject_instance = some obj →
        alive obj = true →
        dispatch2 cur alive objThread args slot
          = some (if objThread obj = cur then Action.direct cb args
                  else Action.queued (objThread obj) cb args)) := by
  refine ⟨fun slot cur a1 a2 o1 o2 args hq => ?_,
    fun slots cur callee => List.take_left slots _,
    fun slots cur cb inst => List.take_left slots _,
    fun slots cur func => List.take_left slots _,
    fun slot cur alive objThread args cb obj hcb hq ha => ?_⟩
  · cases hcb : slot.callback <;> simp [dispatch2, hcb, hq, qptrTest]
  · simp [dispatch2, hcb, hq, qptrTest, ha, apply_ite some]

/-- Concrete instance of `c8_amended`: a receiverless slot's dispatch is
unchanged when the QObject world changes. -/
theorem c8_amended_witness :
    dispatch2 1 (fun _ => true) (fun _ => 0) (3 : Nat)
        { callback := some 2, thread := 1, qobject_instance := none }
      = dispatch2 1 (fun _ => false) (fun _ => 5) (3 : Nat)
        { callback := some 2, thread := 1, qobject_instance := none } :=
  c8_amended.1 { callback := some 2, thread := 1, qobject_instance := none } 1
    (fun _ => true) (fun _ => false) (fun _ => 0) (fun _ => 5) 3 rfl

/-- Claim C4, refuted on a concrete trace: connect callback 0 from thread 1;
emit `7` from thread 2 — the slot's thread differs from the current one, so
a closure capturing the slot (and with it the callback) is posted to
thread 1's event queue; then `disconnect` clears the registry.  The posted
closure is untouched by the removal: when thread 1's event loop runs it, the
removed slot's callback is invoked with `7`, strictly after the removal. -/
theorem c4_counterexample :
    (run (⟨[], []⟩ : SigState Nat)
        [Op.connect (some 0) 1, Op.emit 7 2, Op.disconnect]).1.slots = [] ∧
    (step (run (⟨[], []⟩ : SigState Nat)
        [Op.connect (some 0) 1, Op.emit 7 2, Op.disconnect]).1 (Op.runPending 1)).2
      = [{ origin := Origin.fromQueue, cb := 0, args := 7, ctx := 1 }] := by
  decide

/-- Helper for the amended claim C4: when `popPending` hands thread `ctx` a
closure `p` and leaves `rest`, `p` was pending, was targeted at `ctx`, and
everything left over was already pending. -/
theorem popPending_mem {α : Type} (ctx : Nat) :
    ∀ (l : List (PendingItem α)) (p : PendingItem α) (rest : List (PendingItem α)),
      popPending ctx l = some (p, rest) →
      p ∈ l ∧ p.target = ctx ∧ ∀ q ∈ rest, q ∈ l := by
  intro l
  induction l with
  | nil => intro p rest h; simp [popPending] at h
  | cons a l ih =>
    intro p rest h
    by_cases ha : a.target = ctx
    · simp only [popPending, if_pos ha, Option.some.injEq, Prod.mk.injEq] at h
      obtain ⟨rfl, rfl⟩ := h
      exact ⟨List.mem_cons_self _ _, ha, fun q hq => List.mem_cons_of_mem _ hq⟩
    · cases hrec : popPending ctx l with
      | none => simp [popPending, if_neg ha, hrec] at h
      | some pr =>
        obtain ⟨q0, rest0⟩ := pr
        simp only [popPending, if_neg ha, hrec, Option.some.injEq,
          Prod.mk.injEq] at h
        obtain ⟨rfl, rfl⟩ := h
        obtain ⟨hmem, htgt, hsub⟩ := ih q0 rest0 hrec
        refine ⟨List.mem_cons_of_mem _ hmem, htgt, fun q hq => ?_⟩
        rcases List.mem_cons.1 hq with h1 | h2
        · subst h1; exact List.mem_cons_self _ _
        · exact List.mem_cons_of_mem _ (hsub q h2)

/-- Helper for the amended claim C4: starting from an empty registry, as long
as no `connect` occurs the registry stays empty, and the only invocations
that can still happen are queued closures drawn from what was already
pending. -/
theorem run_no_connect_empty {α : Type} :
    ∀ (ops : List (Op α)) (pending : List (PendingItem α)),
      (∀ op ∈ ops, op.isConnect = false) →
      (run (⟨[], pending⟩ : SigState α) ops).1.slots = [] ∧
      ∀ e ∈ (run (⟨[], pending⟩ : SigState α) ops).2,
        e.origin = Origin.fromQueue ∧
        ({ target := e.ctx, cb := e.cb, args := e.args } : PendingItem α) ∈ pending := by
  intro ops
  induction ops with
  | nil =>
    intro pending _
    exact ⟨rfl, by simp [run]⟩
  | cons op ops ih =>
    intro pending hops
    have hop : op.isConnect = false := hops op (List.mem_cons_self _ _)
    have hops2 : ∀ o ∈ ops, o.isConnect = false :=
      fun o ho => hops o (List.mem_cons_of_mem _ ho)
    cases op with
    | connect f ctx => simp [Op.isConnect] at hop
    | disconnect =>
      simpa [run, step, disconnect1] using ih pending hops2
    | emit args ctx =>
      simpa [run, step, emit1] using ih pending hops2
    | runPending ctx =>
      cases hpop : popPending ctx pending with
      | none =>
        simpa [run, step, hpop] using ih pending hops2
      | some pr =>
        obtain ⟨p, rest⟩ := pr
        obtain ⟨hmem, htgt, hsub⟩ := popPending_mem ctx pending p rest hpop
        have h2 := ih rest hops2
        constructor
        · simpa [run, step, hpop] using h2.1
        · intro e he
          simp only [run, step, hpop, List.cons_append, List.nil_append,
            List.mem_cons] at he
          rcases he with rfl | he
          · refine ⟨rfl, ?_⟩
            have hp : ({ target := ctx, cb := p.cb, args := p.args } :
                PendingItem α) = p := by
              cases p; cases htgt; rfl
            simpa [hp] using hmem
          · obtain ⟨ho, hm⟩ := h2.2 e he
            exact ⟨ho, hsub _ hm⟩

/-- Claim C4 as amended: once `disconnect` (or signal destruction) has
removed the slots, no later emit invokes or enqueues any callback — absent
new connects the registry stays empty and every invocation that still occurs
is a queued closure that was already sitting in some thread's event queue at
removal time.  Closures enqueued before the removal are the one exception the
counterexample forces: they cannot be withdrawn and may still invoke the
removed slot's callback afterwards. -/
theorem c4_amended {α : Type} :
    ∀ (ops : List (Op α)) (s : SigState α),
      (∀ op ∈ ops, op.isConnect = false) →
      (run (step s Op.disconnect).1 ops).1.slots = [] ∧
      ∀ e ∈ (run (step s Op.disconnect).1 ops).2,
        e.origin = Origin.fromQueue ∧
        ({ target := e.ctx, cb := e.cb, args := e.args } : PendingItem α) ∈ s.pending :=
  fun ops s hops => run_no_connect_empty ops s.pending hops

/-- Concrete instance of `c4_amended`: with one closure already pending for
thread 1, running it after a disconnect is the only invocation and the
registry stays empty. -/
theorem c4_amended_witness :
    (run (step (⟨[], [{ target := 1, cb := 0, args := 7 }]⟩ : SigState Nat)
        Op.disconnect).1 [Op.runPending 1]).1.slots = [] :=
  (c4_amended [Op.runPending 1] ⟨[], [{ target := 1, cb := 0, args := 7 }]⟩
    (by decide)).1

/-- Claim C9, refuted on the QMutex variant: its `emit` constructs a
`QMutexLocker` over a plain `QMutex` — an exclusive lock, not a shared one —
so two concurrent `emit` calls on the same signal can never hold their
critical sections at the same time. -/
theorem c9_counterexample :
    emitLock1 = LockKind.exclusive ∧
    mayRunConcurrently emitLock1 emitLock1 = false :=
  ⟨rfl, rfl⟩

/-- Claim C9 as amended: in the QReadWriteLock variant, `emit` acquires a
shared (read) lock — concurrent emits may overlap — while `connect` and
`disconnect` acquire an exclusive (write) lock and are mutually exclusive
with each other and with every emit; in the QMutex variant, `emit`,
`connect` and `disconnect` all acquire the same exclusive mutex, so even two
emits are mutually exclusive. -/
theorem c9_amended :
    (emitLock2 = LockKind.shared ∧ connectLock2 = LockKind.exclusive ∧
      disconnectLock2 = LockKind.exclusive) ∧
    mayRunConcurrently emitLock2 emitLock2 = true ∧
    (mayRunConcurrently connectLock2 emitLock2 = false ∧
      mayRunConcurrently disconnectLock2 emitLock2 = false ∧
      mayRunConcurrently connectLock2 disconnectLock2 = false ∧
      mayRunConcurrently connectLock2 connectLock2 = false) ∧
    (emitLock1 = LockKind.exclusive ∧ connectLock1 = LockKind.exclusive ∧
      disconnectLock1 = LockKind.exclusive ∧
      mayRunConcurrently emitLock1 emitLock1 = false) := by
  decide

end Melo
